import Mathlib

/-!
Shallow embedding of `cge_modeling/production_functions.py`, the string-equation
generator for CES, Dixit-Stiglitz and Leontief production technologies, together
with theorems settling the specification claims about it.

Python values of type `str | list[str]` are embedded as `StrOrList`; functions
that can raise are embedded as `Except String`; the in-place list mutation
performed by `_add_second_alpha` (via `list.append`) is embedded by returning,
next to the result, the value held by the caller's `factor_shares` argument
after the call.
-/

/-- A Python value that is either a bare string or a list of strings. -/
inductive StrOrList where
  | str (s : String)
  | list (l : List String)
deriving DecidableEq, Repr

/-- Modelled from the spec: `at_least_list` is imported from
`cge_modeling.tools.pytensor_tools`, which is not among the given sources.
Per the spec's Input Normalizer ("wrap each bare string as a one-element list",
"after individually normalizing each to at-least-a-list") it wraps a bare
string in a one-element list and returns a list argument as-is — the same
object, so an in-place mutation of the result aliases the list argument. -/
def at_least_list : StrOrList → List String
  | .str s => [s]
  | .list l => l

def unwrap_singleton_list : StrOrList → StrOrList
  | .list [s] => .str s
  | x => x

/-- Python `len` of a str-or-list value: character count for a string. -/
def pyLen : StrOrList → Nat
  | .str s => s.length
  | .list l => l.length

/-- The characters of a string, as the 1-character strings Python iteration yields. -/
def charStrs (s : String) : List String :=
  s.toList.map (fun c => String.singleton c)

/-- Iterating a Python str-or-list: a string yields its characters. -/
def pyElems : StrOrList → List String
  | .str s => charStrs s
  | .list l => l

/-- Python `repr` of a list of strings (quote escaping inside names is not
modelled; no claim exercises names containing quotes). -/
def pyReprList (l : List String) : String :=
  "[" ++ String.intercalate ", " (l.map (fun s => "'" ++ s ++ "'")) ++ "]"

/-- Python `str()` as used by f-string/Template interpolation. -/
def pyStr : StrOrList → String
  | .str s => s
  | .list l => pyReprList l

def isList : StrOrList → Bool
  | .str _ => false
  | .list _ => true

/-- A Python dict of coordinates, as an insertion-ordered association list
(dict keys are unique; lookup takes the first match). -/
abbrev Coords := List (String × List String)

def coordsFind (co : Coords) (k : String) : Option (List String) :=
  (co.find? (fun q => q.1 == k)).map (fun q => q.2)

def isKey (k : String) (co : Coords) : Bool :=
  co.any (fun q => q.1 == k)

/-- Embeds `itertools.combinations(xs, 2)` in its enumeration order. -/
def combos2 {α : Type} : List α → List (α × α)
  | [] => []
  | x :: xs => xs.map (fun y => (x, y)) ++ combos2 xs

/-- Embeds `_check_pairwise_lengths_match(names, args)`: the first pair of arguments
whose at-least-a-list lengths disagree raises a ValueError naming the pair. -/
def _check_pairwise_lengths_match (names : List String) (args : List StrOrList) :
    Except String Unit :=
  let list_args := args.map at_least_list
  match ((combos2 names).zip (combos2 list_args)).find?
      (fun q => q.2.1.length != q.2.2.length) with
  | some q => .error ("Lengths of " ++ q.1.1 ++ " and " ++ q.1.2 ++ " do not match")
  | none => .ok ()

/-- Error-propagating map, mirroring a Python loop that may raise. -/
def mapExcept {α β : Type} (g : α → Except String β) : List α → Except String (List β)
  | [] => .ok []
  | a :: l =>
    match g a with
    | .error e => .error e
    | .ok b =>
      match mapExcept g l with
      | .error e => .error e
      | .ok bs => .ok (b :: bs)

/-- Embeds `itertools.product` over the coordinate label lists: the first list is
outermost (slowest-varying), the last list varies fastest. -/
def cartProd : List (List String) → List (List String)
  | [] => [[]]
  | l :: ls => l.flatMap (fun x => (cartProd ls).map (fun t => x :: t))

/-- Embeds the `"_".join([input] + label_list)` step: a TypeError if the input is still a list. -/
def joinInput (inp : StrOrList) (labels : List String) : Except String String :=
  match inp with
  | .str s => .ok (String.intercalate "_" (s :: labels))
  | .list _ => .error "TypeError: sequence item 0: expected str instance, list found"

/-- Embeds `unpack_string_inputs(*inputs, dims=..., coords=...)`.  The source appends
to each output list while iterating the product tuples; output `i` collects,
in tuple order, the joined names for input `i`, and the only possible error
(the TypeError on an input that is still a list) is the same fixed message
either way, so the two nested loops are interchanged here. -/
def unpack_string_inputs (inputs0 : List StrOrList) (dims : Option (List String))
    (coords : Option Coords) : Except String (List (List String)) :=
  let inputs := inputs0.map unwrap_singleton_list
  if inputs.all isList then .ok (inputs.map at_least_list)
  else
    match dims, coords with
    | some ds, some co =>
      if ds.all (fun d => isKey d co) then
        let labels := ds.map (fun d => (coordsFind co d).getD [])
        mapExcept (fun inp => mapExcept (joinInput inp) (cartProd labels)) inputs
      else .error ("KeyError: Dimensions " ++ pyReprList ds ++ " not found in coords")
    | _, _ => .ok (inputs.map at_least_list)

/-- Embeds `_add_second_alpha(alpha, factors)`.  The second component is the value the
caller's `alpha` argument holds after the call: `alpha.append(...)` acts on the
result of `at_least_list(alpha)`, which aliases `alpha` when `alpha` is already
a list, so a one-element share list passed alongside two factors is mutated. -/
def _add_second_alpha (alpha factors : StrOrList) : List String × StrOrList :=
  match factors with
  | .str _ => (at_least_list alpha, alpha)
  | .list fs =>
    if fs.length ≠ 2 then (at_least_list alpha, alpha)
    else
      match alpha with
      | .str s => ([s, "1 - " ++ s], .str s)
      | .list [s] => ([s, "1 - " ++ s], .list [s, "1 - " ++ s])
      | .list l => (l, .list l)

/-- Embeds `CES(...)`.  The first component is the returned tuple of equations (or the
length-mismatch error), the second the value held by the caller's
`factor_shares` argument after the call (mutation happens before validation). -/
def CES (factors factor_prices : StrOrList) (output output_price TFP : String)
    (factor_shares : StrOrList) (epsilon : String) :
    Except String (List String) × StrOrList :=
  let completed := _add_second_alpha factor_shares factors
  let shares := completed.1
  let post := completed.2
  match _check_pairwise_lengths_match ["factors", "factor_prices", "factor_shares"]
      [factors, factor_prices, .list shares] with
  | .error e => (.error e, post)
  | .ok _ =>
    let production_inner := ((pyElems factors).zip shares).map
      (fun q => "(" ++ q.2 ++ ") * " ++ q.1 ++ " ** ((" ++ epsilon ++ " - 1) / "
        ++ epsilon ++ ")")
    let eq_production := output ++ " = " ++ TFP ++ " * ("
      ++ String.intercalate " + " production_inner ++ ") ** (" ++ epsilon ++ " / ("
      ++ epsilon ++ " - 1))"
    let eq_fac_demands := (((pyElems factors).zip (pyElems factor_prices)).zip shares).map
      (fun q => q.1.1 ++ " = " ++ output ++ " / " ++ TFP ++ " * ((" ++ q.2 ++ ") * "
        ++ output_price ++ " * " ++ TFP ++ " / " ++ q.1.2 ++ ") ** " ++ epsilon)
    (.ok (eq_production :: eq_fac_demands), post)

/-- The single-factor validation loop at the top of `dixit_stiglitz`. -/
def ds_validate : List (Option StrOrList × String) → Option String
  | [] => none
  | (some (.list l), nm) :: rest =>
    if l.length ≠ 1 then
      some ("Dixit-Stiglitz production function expects only a single factor input, "
        ++ "but provided " ++ nm ++ " has length " ++ toString l.length)
    else ds_validate rest
  | _ :: rest => ds_validate rest

/-- Renders `"$x * "` with the value substituted when the optional term is present,
the empty string when it is absent (the `share_str`/`TFP_str` pattern). -/
def optTimes : Option String → String
  | some t => t ++ " * "
  | none => ""

/-- Embeds `dixit_stiglitz(...)`. -/
def dixit_stiglitz (factors factor_prices : StrOrList)
    (output output_price epsilon dims : String) (coords : Coords) (backend : String)
    (TFP : Option String) (factor_shares : Option StrOrList) :
    Except String (String × String) :=
  match ds_validate [(some factors, "factors"), (some factor_prices, "factor_prices"),
      (factor_shares, "factor_shares")] with
  | some e => .error e
  | none =>
    let f := pyStr (unwrap_singleton_list factors)
    let fp := pyStr (unwrap_singleton_list factor_prices)
    let fsh := factor_shares.map (fun s => pyStr (unwrap_singleton_list s))
    let share_str := optTimes fsh
    let TFP_str := optTimes TFP
    let kernel := share_str ++ f ++ " ** ((" ++ epsilon ++ " - 1) / " ++ epsilon ++ ")"
    match coordsFind coords dims with
    | none => .error ("KeyError: " ++ dims)
    | some labels =>
      let dim_len : Int := (labels.length : Int) - 1
      if backend = "numba" then
        .ok (output ++ " = " ++ TFP_str ++ "Sum(" ++ kernel ++ ", (" ++ dims ++ ", 0, "
              ++ toString dim_len ++ ")) ** (" ++ epsilon ++ " / (" ++ epsilon ++ " - 1))",
             f ++ " = " ++ output ++ " / " ++ TFP_str ++ "(" ++ TFP_str ++ share_str
              ++ output_price ++ " / " ++ fp ++ ") ** " ++ epsilon)
      else if backend = "pytensor" then
        .ok (output ++ " = " ++ TFP_str ++ "(" ++ kernel ++ ").sum() ** (" ++ epsilon
              ++ " / (" ++ epsilon ++ " - 1))",
             f ++ " = " ++ output ++ " / " ++ TFP_str ++ "(" ++ TFP_str ++ share_str
              ++ output_price ++ " / " ++ fp ++ ") ** " ++ epsilon)
      else .error ("backend must be one of 'numba' or 'pytensor', found " ++ backend)

/-- Embeds `_1d_leontief(...)`: never raises; the extra `dims`, `coords` and `backend`
arguments of the call site land in `*args, **kwargs` and are ignored. -/
def _1d_leontief (factors factor_prices : StrOrList) (output output_price : String)
    (factor_shares : StrOrList) : List String :=
  let zp_rhs := String.intercalate " + "
    (((pyElems factors).zip (pyElems factor_prices)).map (fun q => q.2 ++ " * " ++ q.1))
  let zero_profit := output_price ++ " * " ++ output ++ " = " ++ zp_rhs
  let factor_demands := ((pyElems factors).zip (pyElems factor_shares)).map
    (fun q => q.1 ++ " = " ++ output ++ " * " ++ q.2)
  zero_profit :: factor_demands

/-- Embeds `_swapaxes(x, i, j)` from `_2d_leontief`: renders the deferred
symbolic substitution call `x.subs(...)` with the core and batch dimension
names in a dict literal. -/
def _swapaxes (x i j : String) : String :=
  x ++ ".subs(\x7b" ++ i ++ ":" ++ j ++ "\x7d)"

/-- Embeds `string.ascii_lowercase`, as the alphabetically ordered list of letters. -/
def ascii_lowercase : List String :=
  ["a", "b", "c", "d", "e", "f", "g", "h", "i", "j", "k", "l", "m",
   "n", "o", "p", "q", "r", "s", "t", "u", "v", "w", "x", "y", "z"]

/-- The dummy index chosen by `_T`:
`sorted(list(set(string.ascii_lowercase) - named_dims))[0]` enumerates, in
alphabetical order, the letters not declared as dimension names in `coords`,
so its first element is the head of the alphabetical letter list filtered by
non-membership; `none` embeds the IndexError when every letter is taken. -/
def temp_dim (co : Coords) : Option String :=
  (ascii_lowercase.filter (fun c => !(isKey c co))).head?

/-- Embeds `_T(x, i, j, coords)` from `_2d_leontief`: renders the deferred symbolic
substitution call `x.subs([(i, t), (j, i), (t, j)])` with `t` the dummy index. -/
def _T (x i j : String) (co : Coords) : Except String String :=
  match temp_dim co with
  | none => .error "IndexError: list index out of range"
  | some t => .ok (x ++ ".subs([(" ++ i ++ ", " ++ t ++ "), (" ++ j ++ ", " ++ i
      ++ "), (" ++ t ++ ", " ++ j ++ ")])")

/-- Python tuple unpacking `core_dim, batch_dim = dims` (a two-character string
unpacks into its characters). -/
def pyUnpack2 : StrOrList → Except String (String × String)
  | .list [a, b] => .ok (a, b)
  | .str s =>
    match s.toList with
    | [c1, c2] => .ok (String.singleton c1, String.singleton c2)
    | _ => .error "ValueError: unpacking dims requires exactly two values"
  | _ => .error "ValueError: unpacking dims requires exactly two values"

/-- Embeds `_2d_leontief(...)`. -/
def _2d_leontief (factors factor_prices : StrOrList) (output output_price : String)
    (factor_shares : StrOrList) (dims : StrOrList) (coords : Coords)
    (backend : String) : Except String (List String) :=
  let f := pyStr (unwrap_singleton_list factors)
  let fp := pyStr (unwrap_singleton_list factor_prices)
  let fsh := pyStr (unwrap_singleton_list factor_shares)
  if backend = "numba" then
    match pyUnpack2 dims with
    | .error e => .error e
    | .ok (core_dim, batch_dim) =>
      match _T f core_dim batch_dim coords with
      | .error e => .error e
      | .ok tf =>
        match coordsFind coords batch_dim with
        | none => .error ("KeyError: " ++ batch_dim)
        | some labels =>
          let rhs := "Sum(" ++ _swapaxes fp core_dim batch_dim ++ " * " ++ tf
            ++ ", (" ++ batch_dim ++ ", 0, " ++ toString ((labels.length : Int) - 1) ++ "))"
          .ok [output_price ++ " * " ++ output ++ " = " ++ rhs,
               f ++ " = " ++ fsh ++ " * " ++ _swapaxes output core_dim batch_dim]
  else if backend = "pytensor" then
    .ok [output_price ++ " * " ++ output ++ " = (" ++ fp ++ "[:, None] * " ++ f
          ++ ").sum(axis=0).ravel()",
         f ++ " = " ++ fsh ++ " * " ++ output ++ "[None]"]
  else .error ("backend must be one of 'numba' or 'pytensor', found " ++ backend)

/-- Embeds `leontief(...)`: pairwise length validation, then dispatch on the number of
dimensions, with the cardinality checks on `len(factors)`. -/
def leontief (factors factor_prices : StrOrList) (output output_price : String)
    (factor_shares : StrOrList) (dims : StrOrList) (coords : Coords)
    (backend : String) : Except String (List String) :=
  match _check_pairwise_lengths_match ["factors", "factor_prices", "factor_shares"]
      [factors, factor_prices, factor_shares] with
  | .error e => .error e
  | .ok _ =>
    if isList dims = false ∨ pyLen dims = 1 then
      if pyLen factors = 1 then
        .error ("Leontief production function expects at least two factors when "
          ++ "len(dims) == 1, found " ++ toString (pyLen factors))
      else
        .ok (_1d_leontief factors factor_prices output output_price factor_shares)
    else
      if pyLen factors ≠ 1 then
        .error ("Leontief production function expects exactly one factor when "
          ++ "len(dims) == 2, found " ++ toString (pyLen factors))
      else
        _2d_leontief factors factor_prices output output_price factor_shares dims
          coords backend

/-! ### Spec-side definitions

These definitions follow the specification's words (not the source); each is
compared against the source-translated definitions above. -/

/-- The spec-claim reading of `swapaxes` as an eager textual substitution of
the core dimension name by the batch dimension name inside the expression,
specialized to single-character dimension names (as in every exercised call). -/
def spec_swapaxes_textual (x i j : String) : String :=
  String.join (x.toList.map
    (fun ch => if String.singleton ch = i then j else String.singleton ch))

/-- The spec-claim reading of the transpose `T` as three eager textual
substitutions core→temp, batch→core, temp→batch applied in that order. -/
def spec_T_textual (x i j : String) (co : Coords) : String :=
  match temp_dim co with
  | some t =>
    spec_swapaxes_textual (spec_swapaxes_textual (spec_swapaxes_textual x i t) j i) t j
  | none => x

/-- The CES production equation as the spec states it: the n-th additive term
is `(share) * factor ** ((epsilon - 1) / epsilon)`. -/
def spec_CES_production (factors shares : List String) (output TFP epsilon : String) :
    String :=
  output ++ " = " ++ TFP ++ " * ("
    ++ String.intercalate " + " ((factors.zip shares).map
      (fun q => "(" ++ q.2 ++ ") * " ++ q.1 ++ " ** ((" ++ epsilon ++ " - 1) / "
        ++ epsilon ++ ")"))
    ++ ") ** (" ++ epsilon ++ " / (" ++ epsilon ++ " - 1))"

/-- The CES factor-demand equations as the spec states them, in factor order:
`factor = output / TFP * ((share) * output_price * TFP / factor_price) ** epsilon`. -/
def spec_CES_demands (factors prices shares : List String)
    (output output_price TFP epsilon : String) : List String :=
  ((factors.zip prices).zip shares).map
    (fun q => q.1.1 ++ " = " ++ output ++ " / " ++ TFP ++ " * ((" ++ q.2 ++ ") * "
      ++ output_price ++ " * " ++ TFP ++ " / " ++ q.1.2 ++ ") ** " ++ epsilon)

/-! ### Helper lemmas -/

theorem mapExcept_joinInput_str (nm : String) (P : List (List String)) :
    mapExcept (joinInput (.str nm)) P =
      .ok (P.map (fun t => String.intercalate "_" (nm :: t))) := by
  induction P with
  | nil => rfl
  | cons t P ih => simp [mapExcept, joinInput, ih]

theorem mapExcept_str_inputs (names : List String) (P : List (List String)) :
    mapExcept (fun inp => mapExcept (joinInput inp) P) (names.map StrOrList.str) =
      .ok (names.map (fun nm => P.map (fun t => String.intercalate "_" (nm :: t)))) := by
  induction names with
  | nil => rfl
  | cons n ns ih => simp [mapExcept, mapExcept_joinInput_str, ih]

theorem head_filter_first (P : String → Bool) (l : String) :
    ∀ L : List String, l ∈ L → P l = true →
      (∀ m ∈ L.takeWhile (fun c => c != l), P m = false) →
      (L.filter P).head? = some l := by
  intro L
  induction L with
  | nil => intro h; simp at h
  | cons a L ih =>
    intro hmem hP htw
    by_cases hal : a = l
    · subst hal
      simp [List.filter_cons, hP]
    · have hatw : a ∈ (a :: L).takeWhile (fun c => c != l) := by
        have : (a != l) = true := bne_iff_ne.mpr hal
        simp [List.takeWhile_cons, this]
      have ha : P a = false := htw a hatw
      have hmem' : l ∈ L := by
        rcases List.mem_cons.mp hmem with h | h
        · exact absurd h.symm hal
        · exact h
      have htw' : ∀ m ∈ L.takeWhile (fun c => c != l), P m = false := by
        intro m hm
        apply htw
        have : (a != l) = true := bne_iff_ne.mpr hal
        simp [List.takeWhile_cons, this]
        right; exact hm
      have hfc : List.filter P (a :: L) = List.filter P L := by
        simp [List.filter_cons, ha]
      rw [hfc]
      exact ih hmem' hP htw'

theorem check3_ok (a b c : StrOrList)
    (h1 : (at_least_list a).length = (at_least_list b).length)
    (h2 : (at_least_list a).length = (at_least_list c).length) :
    _check_pairwise_lengths_match ["factors", "factor_prices", "factor_shares"]
      [a, b, c] = .ok () := by
  simp [_check_pairwise_lengths_match, combos2, List.find?, ← h1, ← h2]

/-! ### Claim C1 -/

/-- C1 (corrected) counterexample: a call with one bare string and one
two-element-list input, dims and coords supplied with every dim a key, does
not expand each input — it raises a TypeError, because the generated-name
join is attempted on the list input as well. -/
theorem unpack_mixed_input_cex :
    unpack_string_inputs [.str "foo", .list ["a", "b"]] (some ["i"])
      (some [("i", ["A", "B"])]) =
    .error "TypeError: sequence item 0: expected str instance, list found" := by
  rfl

/-- C1 (corrected, amended): for every call to `unpack_string_inputs` in which
every input is a bare string after singleton-list unwrapping (at least one
input present) and both dims and coords are supplied with every dim a key of
coords, each input is expanded into one generated name per tuple of the
Cartesian product of `coords[dim]` over dims (dims order, last dimension
fastest), each name joining the base name and the tuple's labels with
underscores. -/
theorem unpack_all_strings_expand (raw : List StrOrList) (names ds : List String)
    (co : Coords)
    (hnames : raw.map unwrap_singleton_list = names.map StrOrList.str)
    (hne : names ≠ [])
    (hkeys : ∀ d ∈ ds, isKey d co = true) :
    unpack_string_inputs raw (some ds) (some co) =
      .ok (names.map (fun nm =>
        (cartProd (ds.map (fun d => (coordsFind co d).getD []))).map
          (fun t => String.intercalate "_" (nm :: t)))) := by
  have hall : (names.map StrOrList.str).all isList = false := by
    cases names with
    | nil => exact absurd rfl hne
    | cons n ns => simp [isList]
  have hkeys' : ds.all (fun d => isKey d co) = true :=
    List.all_eq_true.mpr hkeys
  simp only [unpack_string_inputs, hnames, hall, hkeys', Bool.false_eq_true,
    if_false, if_true]
  exact mapExcept_str_inputs names _

/-- C1 witness: the concrete example from the claim. -/
theorem unpack_all_strings_expand_witness :
    unpack_string_inputs [.str "foo"] (some ["i", "j"])
      (some [("i", ["A", "B"]), ("j", ["X", "Y"])]) =
    .ok [["foo_A_X", "foo_A_Y", "foo_B_X", "foo_B_Y"]] := by
  have h := unpack_all_strings_expand [.str "foo"] ["foo"] ["i", "j"]
    [("i", ["A", "B"]), ("j", ["X", "Y"])] rfl (by decide) (by decide)
  exact h.trans (by rfl)

/-! ### Claim C3 -/

/-- C3 (confirmed): the 2-D Leontief transpose picks as its temporary dummy
index the first lowercase letter in alphabetical order that is not a key of
coords (in particular "a" whenever "a" is not a key, as the witness shows),
and renders on the factor expression the three substitutions core_dim→temp,
batch_dim→core_dim, temp→batch_dim in that exact order. -/
theorem T_temp_dim_first_free_letter (co : Coords) (x i j l : String)
    (hmem : l ∈ ascii_lowercase)
    (hfree : isKey l co = false)
    (hbefore : ∀ m ∈ ascii_lowercase.takeWhile (fun c => c != l), isKey m co = true) :
    temp_dim co = some l ∧
    _T x i j co = .ok (x ++ ".subs([(" ++ i ++ ", " ++ l ++ "), (" ++ j ++ ", " ++ i
      ++ "), (" ++ l ++ ", " ++ j ++ ")])") := by
  have ht : temp_dim co = some l := by
    apply head_filter_first (fun c => !(isKey c co)) l ascii_lowercase hmem
      (by simp [hfree])
    intro m hm
    simp [hbefore m hm]
  exact ⟨ht, by simp [_T, ht]⟩

/-- C3 witness: with coords declaring dims "i" and "j" (no key "a"), the
temporary dummy index is "a" and the substitution list is rendered in the
order core→a, batch→core, a→batch. -/
theorem T_temp_dim_first_free_letter_witness :
    temp_dim [("i", ["A"]), ("j", ["B"])] = some "a" ∧
    _T "X" "i" "j" [("i", ["A"]), ("j", ["B"])] =
      .ok "X.subs([(i, a), (j, i), (a, j)])" := by
  have h := T_temp_dim_first_free_letter [("i", ["A"]), ("j", ["B"])] "X" "i" "j" "a"
    (by decide) (by decide) (by decide)
  exact ⟨h.1, h.2.trans (by rfl)⟩

/-! ### Claim C4 -/

/-- C4 (corrected) counterexample: `CES` is not free of argument mutation —
passing a one-element `factor_shares` list alongside two factors leaves the
caller's list changed after the call (the synthesized complementary share is
appended in place). -/
theorem CES_mutates_factor_shares_cex :
    (CES (.list ["K", "L"]) (.list ["r", "w"]) "Y" "P" "A"
      (.list ["alpha"]) "eps").2 ≠ .list ["alpha"] := by
  decide

/-- C4 (corrected, amended): `unpack_string_inputs`, `dixit_stiglitz` and
`leontief` mutate nothing (they are pure functions in this embedding); `CES`
leaves every argument unchanged except `factor_shares`, which — exactly when
`factors` is a two-element list and `factor_shares` a one-element list — is
mutated in place to also hold the synthesized complementary share. -/
theorem CES_factor_shares_after_call (factors factor_prices : StrOrList)
    (output output_price TFP : String) (factor_shares : StrOrList)
    (epsilon : String) :
    (CES factors factor_prices output output_price TFP factor_shares epsilon).2 =
      match factors, factor_shares with
      | .list [_, _], .list [s] => .list [s, "1 - " ++ s]
      | _, _ => factor_shares := by
  have hsnd : (CES factors factor_prices output output_price TFP factor_shares
      epsilon).2 = (_add_second_alpha factor_shares factors).2 := by
    simp only [CES]
    cases _check_pairwise_lengths_match ["factors", "factor_prices", "factor_shares"]
        [factors, factor_prices, .list (_add_second_alpha factor_shares factors).1]
      <;> rfl
  rw [hsnd]
  rcases factors with s | fs
  · rcases factor_shares with a | l <;> rfl
  · rcases fs with _ | ⟨f1, _ | ⟨f2, _ | ⟨f3, rest⟩⟩⟩
    · rcases factor_shares with a | l <;> rfl
    · rcases factor_shares with a | l <;> rfl
    · rcases factor_shares with a | (_ | ⟨s1, _ | ⟨s2, r⟩⟩) <;>
        simp [_add_second_alpha]
    · rcases factor_shares with a | l <;> simp [_add_second_alpha]

/-! ### Claim C5 -/

/-- C5 (corrected) counterexample: `leontief`'s 1-D dispatch path ignores the
backend tag entirely — with an unsupported backend value the call does not
raise, it returns the usual equations. -/
theorem leontief_1d_ignores_backend_cex :
    leontief (.list ["K", "L"]) (.list ["r", "w"]) "Y" "P" (.list ["a1", "a2"])
      (.str "i") [("i", ["A"])] "garbage" =
    .ok ["P * Y = r * K + w * L", "K = Y * a1", "L = Y * a2"] := by
  rfl

/-- C5 (corrected, amended): `dixit_stiglitz` (once its single-factor
validation and coordinate lookup pass) and `leontief`'s 2-D path reject every
backend other than "numba" and "pytensor" with the unsupported-backend error,
while `leontief`'s 1-D path ignores the backend tag — its result is the same
for every backend value. -/
theorem unsupported_backend_rejection (backend : String)
    (f fp o op eps d : String) (co : Coords) (TFP : Option String)
    (fsh : Option String) (ls : List String)
    (f1 p1 s1 c1 b1 : String) (co1 : Coords)
    (hn : backend ≠ "numba") (hp : backend ≠ "pytensor")
    (hco : coordsFind co d = some ls) :
    dixit_stiglitz (.str f) (.str fp) o op eps d co backend TFP
        (fsh.map StrOrList.str) =
      .error ("backend must be one of 'numba' or 'pytensor', found " ++ backend) ∧
    leontief (.list [f1]) (.list [p1]) o op (.list [s1]) (.list [c1, b1]) co1
        backend =
      .error ("backend must be one of 'numba' or 'pytensor', found " ++ backend) ∧
    (∀ other : String,
      leontief (.list [f1, f1]) (.list [p1, p1]) o op (.list [s1, s1]) (.str d) co1
          backend =
        leontief (.list [f1, f1]) (.list [p1, p1]) o op (.list [s1, s1]) (.str d) co1
          other) := by
  refine ⟨?_, ?_, fun other => rfl⟩
  · cases fsh <;>
      simp [dixit_stiglitz, ds_validate, hco, hn, hp, unwrap_singleton_list, pyStr]
  · simp [leontief, _2d_leontief, _check_pairwise_lengths_match, combos2,
      at_least_list, List.find?, isList, pyLen, hn, hp]

/-- C5 witness: concrete instances of the three conjuncts at backend "garbage". -/
theorem unsupported_backend_rejection_witness :
    dixit_stiglitz (.str "X") (.str "P") "Y" "PY" "e" "i" [("i", ["A"])] "garbage"
        none none =
      .error "backend must be one of 'numba' or 'pytensor', found garbage" ∧
    leontief (.list ["K"]) (.list ["r"]) "Y" "PY" (.list ["a"]) (.list ["i", "j"])
        [] "garbage" =
      .error "backend must be one of 'numba' or 'pytensor', found garbage" ∧
    leontief (.list ["K", "K"]) (.list ["r", "r"]) "Y" "PY" (.list ["a", "a"])
        (.str "i") [] "garbage" =
      leontief (.list ["K", "K"]) (.list ["r", "r"]) "Y" "PY" (.list ["a", "a"])
        (.str "i") [] "numba" := by
  have h := unsupported_backend_rejection "garbage" "X" "P" "Y" "PY" "e" "i"
    [("i", ["A"])] none none ["A"] "K" "r" "a" "i" "j" []
    (by decide) (by decide) (by rfl)
  exact ⟨h.1.trans (by rfl), h.2.1.trans (by rfl), h.2.2 "numba"⟩

/-! ### Claim C6 -/

/-- C6 (corrected) counterexample: a 1-D `leontief` call with zero factors —
fewer than two — passes length validation and returns normally instead of
raising a cardinality error. -/
theorem leontief_zero_factors_cex :
    leontief (.list []) (.list []) "Y" "P" (.list []) (.str "i") [] "numba" =
      .ok ["P * Y = "] := by
  rfl

/-- C6 (corrected, amended): for every `leontief` call with equal-length list
inputs: on the 1-D path (bare-string dims) the cardinality error is raised
exactly when the number of factors is one (zero factors are accepted and the
call returns the 1-D equations), and on a two-element dims list the
cardinality error is raised whenever the number of factors is not exactly
one. -/
theorem leontief_cardinality_checks (fs fps shs : List String)
    (o op d d1 d2 : String) (co : Coords) (backend : String)
    (h1 : fps.length = fs.length) (h2 : shs.length = fs.length) :
    (fs.length = 1 →
      leontief (.list fs) (.list fps) o op (.list shs) (.str d) co backend =
        .error ("Leontief production function expects at least two factors when "
          ++ "len(dims) == 1, found " ++ toString (1 : Nat))) ∧
    (fs.length ≠ 1 →
      leontief (.list fs) (.list fps) o op (.list shs) (.str d) co backend =
        .ok (_1d_leontief (.list fs) (.list fps) o op (.list shs))) ∧
    (fs.length ≠ 1 →
      leontief (.list fs) (.list fps) o op (.list shs) (.list [d1, d2]) co backend =
        .error ("Leontief production function expects exactly one factor when "
          ++ "len(dims) == 2, found " ++ toString fs.length)) := by
  have hc := check3_ok (.list fs) (.list fps) (.list shs)
    (by simp [at_least_list, h1]) (by simp [at_least_list, h2])
  refine ⟨fun hlen => ?_, fun hlen => ?_, fun hlen => ?_⟩
  · simp [leontief, hc, isList, pyLen, hlen]
  · simp [leontief, hc, isList, pyLen, hlen]
  · simp [leontief, hc, isList, pyLen, hlen]

/-- C6 witness: one factor on the 1-D path raises; two factors on the 1-D path
return equations; two factors on the 2-D path raise. -/
theorem leontief_cardinality_checks_witness :
    leontief (.list ["K"]) (.list ["r"]) "Y" "P" (.list ["a"]) (.str "i") []
        "numba" =
      .error ("Leontief production function expects at least two factors when "
        ++ "len(dims) == 1, found 1") ∧
    leontief (.list ["K", "L"]) (.list ["r", "w"]) "Y" "P" (.list ["a", "b"])
        (.str "i") [] "numba" =
      .ok ["P * Y = r * K + w * L", "K = Y * a", "L = Y * b"] ∧
    leontief (.list ["K", "L"]) (.list ["r", "w"]) "Y" "P" (.list ["a", "b"])
        (.list ["i", "j"]) [] "numba" =
      .error ("Leontief production function expects exactly one factor when "
        ++ "len(dims) == 2, found 2") := by
  have hA := leontief_cardinality_checks ["K"] ["r"] ["a"] "Y" "P" "i" "i" "j" []
    "numba" rfl rfl
  have hB := leontief_cardinality_checks ["K", "L"] ["r", "w"] ["a", "b"] "Y" "P"
    "i" "i" "j" [] "numba" rfl rfl
  exact ⟨(hA.1 rfl).trans (by rfl), (hB.2.1 (by decide)).trans (by rfl),
    (hB.2.2 (by decide)).trans (by rfl)⟩

/-! ### Claim C7 -/

theorem add_second_alpha_list_keep (shs fs : List String)
    (h : fs.length ≠ 2 ∨ shs.length ≠ 1) :
    _add_second_alpha (.list shs) (.list fs) = (shs, .list shs) := by
  unfold _add_second_alpha
  by_cases h2 : fs.length = 2
  · rcases h with h | h
    · exact absurd h2 h
    · rcases shs with _ | ⟨a, _ | ⟨b, t⟩⟩
      · simp [h2]
      · exact absurd rfl h
      · simp [h2]
  · simp [h2, at_least_list]

/-- C7 (confirmed): a CES call with N equal-length list inputs (N ≥ 1) returns
exactly N+1 strings — first the production equation whose n-th additive term
is `(share) * factor ** ((epsilon - 1) / epsilon)`, then, in factor input
order, one demand equation
`factor = output / TFP * ((share) * output_price * TFP / factor_price) ** epsilon`
per factor. -/
theorem CES_equations_shape (fs fps shs : List String) (o op TFP eps : String)
    (hp : fps.length = fs.length) (hs : shs.length = fs.length) (hne : fs ≠ []) :
    (CES (.list fs) (.list fps) o op TFP (.list shs) eps).1 =
      .ok (spec_CES_production fs shs o TFP eps ::
        spec_CES_demands fs fps shs o op TFP eps) ∧
    (spec_CES_demands fs fps shs o op TFP eps).length = fs.length := by
  have hkeep : _add_second_alpha (.list shs) (.list fs) = (shs, .list shs) := by
    apply add_second_alpha_list_keep
    by_cases h2 : fs.length = 2
    · right; rw [hs, h2]; decide
    · left; exact h2
  have hc := check3_ok (.list fs) (.list fps) (.list shs)
    (by simp [at_least_list, hp]) (by simp [at_least_list, hs])
  constructor
  · simp only [CES, hkeep, hc]
    rfl
  · simp [spec_CES_demands, hp, hs]

/-- C7 witness: a concrete two-factor CES call. -/
theorem CES_equations_shape_witness :
    (CES (.list ["K", "L"]) (.list ["r", "w"]) "Y" "P" "A" (.list ["al", "be"])
        "eps").1 =
      .ok ["Y = A * ((al) * K ** ((eps - 1) / eps) + (be) * L ** ((eps - 1) / eps)) ** (eps / (eps - 1))",
           "K = Y / A * ((al) * P * A / r) ** eps",
           "L = Y / A * ((be) * P * A / w) ** eps"] ∧
    (spec_CES_demands ["K", "L"] ["r", "w"] ["al", "be"] "Y" "P" "A" "eps").length
      = 2 := by
  have h := CES_equations_shape ["K", "L"] ["r", "w"] ["al", "be"] "Y" "P" "A" "eps"
    rfl rfl (by decide)
  exact ⟨h.1.trans (by rfl), h.2⟩

/-! ### Claim C9 -/

/-- C9 (confirmed): for a two-factor CES call supplying exactly one share
string s (bare or as a singleton list), the derived share list is
[s, "1 - " + s], and it is what the generated equations use; when the number
of factors is not exactly two, the supplied shares are returned normalized to
a list with no synthesis. -/
theorem two_factor_share_completion (f1 f2 p1 p2 o op tfp eps s : String) :
    ((_add_second_alpha (.str s) (.list [f1, f2])).1 = [s, "1 - " ++ s] ∧
     (_add_second_alpha (.list [s]) (.list [f1, f2])).1 = [s, "1 - " ++ s]) ∧
    (∀ alpha factors : StrOrList, (at_least_list factors).length ≠ 2 →
      (_add_second_alpha alpha factors).1 = at_least_list alpha) ∧
    (CES (.list [f1, f2]) (.list [p1, p2]) o op tfp (.str s) eps).1 =
      .ok (spec_CES_production [f1, f2] [s, "1 - " ++ s] o tfp eps ::
        spec_CES_demands [f1, f2] [p1, p2] [s, "1 - " ++ s] o op tfp eps) := by
  refine ⟨⟨rfl, rfl⟩, ?_, ?_⟩
  · intro alpha factors h
    rcases factors with t | l
    · rfl
    · have hl : l.length ≠ 2 := by simpa [at_least_list] using h
      simp [_add_second_alpha, hl]
  · rfl

/-- C9 witness: concrete instantiation, with the synthesized complementary
share visible in the generated equations. -/
theorem two_factor_share_completion_witness :
    (_add_second_alpha (.str "al") (.list ["K", "L"])).1 = ["al", "1 - al"] ∧
    (_add_second_alpha (.list ["x", "y", "z"]) (.list ["K", "L", "M"])).1 =
      ["x", "y", "z"] ∧
    (CES (.list ["K", "L"]) (.list ["r", "w"]) "Y" "P" "A" (.str "al") "eps").1 =
      .ok ["Y = A * ((al) * K ** ((eps - 1) / eps) + (1 - al) * L ** ((eps - 1) / eps)) ** (eps / (eps - 1))",
           "K = Y / A * ((al) * P * A / r) ** eps",
           "L = Y / A * ((1 - al) * P * A / w) ** eps"] := by
  have h := two_factor_share_completion "K" "L" "r" "w" "Y" "P" "A" "eps" "al"
  exact ⟨h.1.1, (h.2.1 (.list ["x", "y", "z"]) (.list ["K", "L", "M"])
    (by decide)).trans (by rfl), h.2.2.trans (by rfl)⟩

/-! ### Claim C8 -/

/-- C8 (confirmed): every `dixit_stiglitz` call that passes the single-factor
validation (with dims a key of coords and a supported backend) returns exactly
the pair (production equation, factor demand) whatever the TFP/factor_shares
presence; the share factor is textually omitted from the kernel when
factor_shares is omitted, the TFP multiplier is textually omitted when TFP is
omitted, and a supplied TFP is rendered twice in the demand equation, once
outside and once inside the inner parenthesis:
`factor = output / TFP * (TFP * [share *] output_price / factor_price) ** epsilon`. -/
theorem dixit_stiglitz_pair_shape (f fp o op eps d : String) (co : Coords)
    (TFP : Option String) (fsh : Option String) (ls : List String)
    (hco : coordsFind co d = some ls) :
    dixit_stiglitz (.str f) (.str fp) o op eps d co "numba" TFP
        (fsh.map StrOrList.str) =
      .ok (o ++ " = " ++ optTimes TFP ++ "Sum("
            ++ (optTimes fsh ++ f ++ " ** ((" ++ eps ++ " - 1) / " ++ eps ++ ")")
            ++ ", (" ++ d ++ ", 0, " ++ toString ((ls.length : Int) - 1)
            ++ ")) ** (" ++ eps ++ " / (" ++ eps ++ " - 1))",
           f ++ " = " ++ o ++ " / " ++ optTimes TFP ++ "(" ++ optTimes TFP
            ++ optTimes fsh ++ op ++ " / " ++ fp ++ ") ** " ++ eps) ∧
    dixit_stiglitz (.str f) (.str fp) o op eps d co "pytensor" TFP
        (fsh.map StrOrList.str) =
      .ok (o ++ " = " ++ optTimes TFP ++ "("
            ++ (optTimes fsh ++ f ++ " ** ((" ++ eps ++ " - 1) / " ++ eps ++ ")")
            ++ ").sum() ** (" ++ eps ++ " / (" ++ eps ++ " - 1))",
           f ++ " = " ++ o ++ " / " ++ optTimes TFP ++ "(" ++ optTimes TFP
            ++ optTimes fsh ++ op ++ " / " ++ fp ++ ") ** " ++ eps) := by
  cases fsh <;>
    exact ⟨by simp [dixit_stiglitz, ds_validate, unwrap_singleton_list, pyStr, hco,
        optTimes],
      by simp [dixit_stiglitz, ds_validate, unwrap_singleton_list, pyStr, hco,
        optTimes]⟩

/-- C8 witness: both backends with TFP and share supplied, showing the doubled
TFP rendering in the demand equation. -/
theorem dixit_stiglitz_pair_shape_witness :
    dixit_stiglitz (.str "X") (.str "P_X") "Y" "P" "eps" "i"
        [("i", ["A", "B", "C"])] "numba" (some "A") (some (.str "alpha")) =
      .ok ("Y = A * Sum(alpha * X ** ((eps - 1) / eps), (i, 0, 2)) ** (eps / (eps - 1))",
           "X = Y / A * (A * alpha * P / P_X) ** eps") ∧
    dixit_stiglitz (.str "X") (.str "P_X") "Y" "P" "eps" "i"
        [("i", ["A", "B", "C"])] "pytensor" (some "A") (some (.str "alpha")) =
      .ok ("Y = A * (alpha * X ** ((eps - 1) / eps)).sum() ** (eps / (eps - 1))",
           "X = Y / A * (A * alpha * P / P_X) ** eps") := by
  have h := dixit_stiglitz_pair_shape "X" "P_X" "Y" "P" "eps" "i"
    [("i", ["A", "B", "C"])] (some "A") (some "alpha") ["A", "B", "C"] (by rfl)
  exact ⟨h.1.trans (by rfl), h.2.trans (by rfl)⟩

/-! ### Claim C10 -/

theorem charStrs_length (s : String) : (charStrs s).length = s.length := by
  rw [charStrs, List.length_map]
  rfl

/-- C10 (confirmed): when `leontief` receives `factors` as a bare string its
cardinality checks measure the character length of that string.  With one dim
a single-character name raises the cardinality error while a multi-character
name is accepted and the 1-D generator iterates over the individual
characters, one demand equation per character; with two dims only a
single-character name passes on to the 2-D generator. -/
theorem leontief_bare_string_factors (s p sh o op d d1 d2 : String) (co : Coords)
    (backend : String) :
    (s.length = 1 →
      leontief (.str s) (.str p) o op (.str sh) (.str d) co backend =
        .error ("Leontief production function expects at least two factors when "
          ++ "len(dims) == 1, found " ++ toString (1 : Nat))) ∧
    (s.length ≠ 1 →
      leontief (.str s) (.str p) o op (.str sh) (.str d) co backend =
        .ok ((op ++ " * " ++ o ++ " = " ++ String.intercalate " + "
            (((charStrs s).zip (charStrs p)).map (fun q => q.2 ++ " * " ++ q.1)))
          :: ((charStrs s).zip (charStrs sh)).map
              (fun q => q.1 ++ " = " ++ o ++ " * " ++ q.2)) ∧
      (sh.length = s.length →
        (((charStrs s).zip (charStrs sh)).map
          (fun q => q.1 ++ " = " ++ o ++ " * " ++ q.2)).length = s.length)) ∧
    (s.length ≠ 1 →
      leontief (.str s) (.str p) o op (.str sh) (.list [d1, d2]) co backend =
        .error ("Leontief production function expects exactly one factor when "
          ++ "len(dims) == 2, found " ++ toString s.length)) ∧
    (s.length = 1 →
      leontief (.str s) (.str p) o op (.str sh) (.list [d1, d2]) co backend =
        _2d_leontief (.str s) (.str p) o op (.str sh) (.list [d1, d2]) co
          backend) := by
  refine ⟨fun hlen => ?_, fun hlen => ⟨?_, fun hsh => ?_⟩, fun hlen => ?_,
    fun hlen => ?_⟩
  · simp [leontief, isList, pyLen, hlen, _check_pairwise_lengths_match, combos2,
      at_least_list, List.find?]
  · simp [leontief, isList, pyLen, hlen, _check_pairwise_lengths_match, combos2,
      at_least_list, List.find?, _1d_leontief, pyElems]
  · simp [List.length_zip, charStrs_length, hsh]
  · simp [leontief, isList, pyLen, hlen, _check_pairwise_lengths_match, combos2,
      at_least_list, List.find?]
  · simp [leontief, isList, pyLen, hlen, _check_pairwise_lengths_match, combos2,
      at_least_list, List.find?]

/-- C10 witness: factors "KL" on the 1-D path expands per character; "K" on
the 1-D path raises; "KL" on the 2-D path raises; "K" on the 2-D path goes
through to the 2-D generator. -/
theorem leontief_bare_string_factors_witness :
    leontief (.str "K") (.str "p") "Y" "P" (.str "a") (.str "i") [] "numba" =
      .error ("Leontief production function expects at least two factors when "
        ++ "len(dims) == 1, found 1") ∧
    leontief (.str "KL") (.str "pq") "Y" "P" (.str "ab") (.str "i") [] "numba" =
      .ok ["P * Y = p * K + q * L", "K = Y * a", "L = Y * b"] ∧
    leontief (.str "KL") (.str "pq") "Y" "P" (.str "ab") (.list ["i", "j"]) []
        "numba" =
      .error ("Leontief production function expects exactly one factor when "
        ++ "len(dims) == 2, found 2") ∧
    leontief (.str "K") (.str "p") "Y" "P" (.str "a") (.list ["i", "j"])
        [("j", ["A"])] "numba" =
      .ok ["P * Y = Sum(p.subs(\x7bi:j\x7d) * K.subs([(i, a), (j, i), (a, j)]), (j, 0, 0))",
           "K = a * Y.subs(\x7bi:j\x7d)"] := by
  have h1 := leontief_bare_string_factors "K" "p" "a" "Y" "P" "i" "i" "j" [] "numba"
  have h2 := leontief_bare_string_factors "KL" "pq" "ab" "Y" "P" "i" "i" "j" []
    "numba"
  have h4 := leontief_bare_string_factors "K" "p" "a" "Y" "P" "i" "i" "j"
    [("j", ["A"])] "numba"
  exact ⟨(h1.1 rfl).trans (by rfl), ((h2.2.1 (by decide)).1).trans (by rfl),
    (h2.2.2.1 (by decide)).trans (by rfl), (h4.2.2.2 rfl).trans (by rfl)⟩

/-! ### Claim C2 -/

/-- C2 (corrected) counterexample: reading `swapaxes` (and the transpose) as
an eager textual substitution inside the expression, as the claim defines it,
predicts equations without any rendered `.subs` call; the code's actual output
differs — it appends deferred `.subs(...)` calls to the symbol names. -/
theorem leontief_2d_swapaxes_textual_cex :
    (leontief (.str "X") (.str "P") "Y" "P_Y" (.str "phi") (.list ["i", "j"])
      [("i", ["A", "B"]), ("j", ["C", "D"])] "numba").toOption ≠
    some ["P_Y * Y = Sum(" ++ spec_swapaxes_textual "P" "i" "j" ++ " * "
            ++ spec_T_textual "X" "i" "j" [("i", ["A", "B"]), ("j", ["C", "D"])]
            ++ ", (j, 0, 1))",
          "X = phi * " ++ spec_swapaxes_textual "Y" "i" "j"] := by
  decide

/-- C2 (corrected, amended): for every 2-D `leontief` call on the "numba"
(summation) backend with dims (core_dim, batch_dim), the zero-profit equation
is `output_price * output = Sum(swapaxes(factor_prices, core, batch) *
T(factors, core, batch), (batch_dim, 0, len(coords[batch_dim])-1))` and the
factor demand is `factors = factor_shares * swapaxes(output, core, batch)`,
where `swapaxes(x, i, j)` renders the deferred substitution call
`x.subs(...)` appended textually to the expression (with the dict argument
pairing i with j), and `T` appends the deferred three-pair substitution list
— neither performs an eager textual replacement inside x. -/
theorem leontief_2d_numba_equations (f p sh o op c b t : String) (co : Coords)
    (ls : List String)
    (hco : coordsFind co b = some ls) (ht : temp_dim co = some t) :
    leontief (.list [f]) (.list [p]) o op (.list [sh]) (.list [c, b]) co
        "numba" =
      .ok [op ++ " * " ++ o ++ " = "
            ++ ("Sum(" ++ (p ++ ".subs(\x7b" ++ c ++ ":" ++ b ++ "\x7d)") ++ " * "
              ++ (f ++ ".subs([(" ++ c ++ ", " ++ t ++ "), (" ++ b ++ ", " ++ c
                ++ "), (" ++ t ++ ", " ++ b ++ ")])")
              ++ ", (" ++ b ++ ", 0, " ++ toString ((ls.length : Int) - 1) ++ "))"),
           f ++ " = " ++ sh ++ " * "
            ++ (o ++ ".subs(\x7b" ++ c ++ ":" ++ b ++ "\x7d)")] := by
  simp [leontief, _2d_leontief, _check_pairwise_lengths_match, combos2,
    at_least_list, List.find?, isList, pyLen, pyUnpack2, unwrap_singleton_list,
    pyStr, _T, _swapaxes, ht, hco]

/-- C2 witness: the concrete 2-D summation-backend call, with the rendered
`.subs` calls visible in both returned equations. -/
theorem leontief_2d_numba_equations_witness :
    leontief (.list ["X"]) (.list ["P"]) "Y" "P_Y" (.list ["phi"])
        (.list ["i", "j"]) [("i", ["A", "B"]), ("j", ["C", "D"])] "numba" =
      .ok ["P_Y * Y = Sum(P.subs(\x7bi:j\x7d) * X.subs([(i, a), (j, i), (a, j)]), (j, 0, 1))",
           "X = phi * Y.subs(\x7bi:j\x7d)"] := by
  have h := leontief_2d_numba_equations "X" "P" "phi" "Y" "P_Y" "i" "j" "a"
    [("i", ["A", "B"]), ("j", ["C", "D"])] ["C", "D"] (by rfl) (by rfl)
  exact h.trans (by rfl)
